import Mathlib

/-!
Verification of the knowledge-decay scoring pipeline.

This file is a shallow embedding, in Lean 4, of the decay-analysis core of
the repository (services/confidenceScorer.js, freshnessEvaluator.js,
contradictionDetector.js, versionDriftAnalyzer.js, updateGenerator.js,
decayEngine.js and utils/textAnalysis.js, utils/vectorUtils.js).

Modelling conventions:
* JS numbers are modelled as rationals (`ℚ`).  `Math.round(x*1000)/1000`
  becomes `round3`, `Math.round(x*100)/100` becomes `round2`, where the JS
  `Math.round` (round half toward positive infinity) is `jsRound`.
* `Math.sqrt` is modelled by `ratSqrt`, an exact square root on rationals
  whose numerator and denominator are perfect squares.  Every concrete
  evaluation below applies it only to perfect squares, where it agrees with
  the real square root; general theorems never depend on its value.
* Timestamps are epoch milliseconds.  A document field that may be absent
  (`undefined`) or present-but-unparseable is `Option (Option ℤ)`:
  the outer `none` is an absent field, the inner `none` is a value on which
  `new Date(...)` yields an Invalid Date (`NaN`).  A parsed date is
  `Option ℤ` with `none` playing the role of `NaN`; all `NaN` comparisons
  are false, as in JS.
* The TF-IDF statistics of the `natural` npm package (an external
  collaborator per the specification) are a parameter
  `tfidf : String → List (String × ℚ)` giving the `listTerms` output for a
  one-document corpus; `generateTfIdfEmbedding` applies the source's own
  guard, threshold filter and rounding on top of it.
* Strings are ASCII in every concrete input, so `String.length`,
  `String.toLower` etc. agree with their JS counterparts.
-/

/-- JS `Math.round`: round half toward positive infinity, on rationals.
`jsRound q = ⌊q + 1/2⌋`, computed on numerator and denominator so that it
kernel-reduces. -/
def jsRound (q : ℚ) : ℤ :=
  Int.fdiv (2 * q.num + (q.den : ℤ)) (2 * (q.den : ℤ))

/-- `Math.round(x * 1000) / 1000`: round to 3 decimal places. -/
def round3 (q : ℚ) : ℚ := (jsRound (q * 1000) : ℚ) / 1000

/-- `Math.round(x * 100) / 100`: round to 2 decimal places. -/
def round2 (q : ℚ) : ℚ := (jsRound (q * 100) : ℚ) / 100

/-- JS `Math.min` on two numbers. -/
def jsMin (a b : ℚ) : ℚ := if a ≤ b then a else b

/-- JS `Math.max` on two numbers. -/
def jsMax (a b : ℚ) : ℚ := if a ≤ b then b else a

/-- Largest natural whose square does not exceed `n` (linear scan, so that
it reduces in the kernel; `Nat.sqrt` is defined by well-founded recursion
and does not). -/
def natSqrtLinear (n : ℕ) : ℕ :=
  (List.range (n + 1)).foldl (fun acc k => if k * k ≤ n then k else acc) 0

/-- Model of JS `Math.sqrt` on the nonnegative rationals produced as vector
norms.  Exact whenever numerator and denominator are perfect squares, which
holds at every concrete input evaluated in this file; no general theorem
depends on its value elsewhere. -/
def ratSqrt (q : ℚ) : ℚ :=
  (natSqrtLinear q.num.toNat : ℚ) / (natSqrtLinear q.den : ℚ)

/-- A parsed JS date: `none` is `NaN` (Invalid Date). -/
abbrev JsDate := Option ℤ

/-- A date-valued document field: outer `none` = field absent, inner
`none` = present but not parseable as a date. -/
abbrev JsDateField := Option (Option ℤ)

/-- `new Date(field)` on a possibly-absent field: absent or unparseable
gives `NaN`. -/
def parseDateField (f : JsDateField) : JsDate := f.bind id

/-- JS `a || b` on two date-valued fields: any present value (even an
unparseable one) is truthy. -/
def jsOrField (a b : JsDateField) : JsDateField :=
  match a with
  | none => b
  | some v => some v

/-- JS `<` on parsed dates: any comparison with `NaN` is false. -/
def jsDateLt (a b : JsDate) : Bool :=
  match a, b with
  | some x, some y => decide (x < y)
  | _, _ => false

/-- JS `>=` on a parsed date and an integer threshold: false on `NaN`. -/
def jsDateGe (a : JsDate) (b : ℤ) : Bool :=
  match a with
  | some x => decide (b ≤ x)
  | none => false

/-! ## Sparse vectors (TF-IDF term-weight maps) -/

/-- A sparse term-weight map, as produced by `generateTfIdfEmbedding`
(`{term: weight}` in JS).  Keys are distinct in every vector the pipeline
builds. -/
abbrev SparseVec := List (String × ℚ)

/-- `vec[term] || 0`. -/
def vecGet (v : SparseVec) (t : String) : ℚ := (v.lookup t).getD 0

/-- Union of the key sets of two vectors, in first-occurrence order
(`new Set([...Object.keys(vec1), ...Object.keys(vec2)])`). -/
def unionTerms (v1 v2 : SparseVec) : List String :=
  ((v1.map Prod.fst ++ v2.map Prod.fst).foldl
    (fun acc t => if t ∈ acc then acc else acc ++ [t]) [])

/-- `cosineSimilarity(vec1, vec2)` from utils/textAnalysis.js: 0 when either
vector is empty or the product of norms is 0, otherwise the cosine rounded
to 3 decimal places. -/
def cosineSimilarity (v1 v2 : SparseVec) : ℚ :=
  if v1.isEmpty || v2.isEmpty then 0
  else
    let allTerms := unionTerms v1 v2
    let dotProduct := allTerms.foldl (fun a t => a + vecGet v1 t * vecGet v2 t) 0
    let norm1 := allTerms.foldl (fun a t => a + vecGet v1 t * vecGet v1 t) 0
    let norm2 := allTerms.foldl (fun a t => a + vecGet v2 t * vecGet v2 t) 0
    let magnitude := ratSqrt norm1 * ratSqrt norm2
    if magnitude = 0 then 0
    else round3 (dotProduct / magnitude)

/-- NaN-propagating addition on JS numbers (`none` is `NaN`). -/
def nanAdd : Option ℚ → Option ℚ → Option ℚ
  | some a, some b => some (a + b)
  | _, _ => none

/-- NaN-propagating multiplication on JS numbers. -/
def nanMul : Option ℚ → Option ℚ → Option ℚ
  | some a, some b => some (a * b)
  | _, _ => none

/-- NaN-propagating division on JS numbers.  (Division by an actual 0 is
unreachable below: the source tests `magnitude === 0` first.) -/
def nanDiv : Option ℚ → Option ℚ → Option ℚ
  | some a, some b => some (a / b)
  | _, _ => none

/-- The dot product and the two squared norms accumulated by the dense
branch of `calculateSimilarity` in utils/vectorUtils.js.  The source loops
over the indices of the first array, so when the second array is shorter
its reads are `undefined` and the accumulated `dotProduct` and `norm2`
end as `NaN` (`none`), while `norm1` keeps accumulating; entries of a
longer second array are simply ignored. -/
def denseLoop : List ℚ → List ℚ → Option ℚ × Option ℚ × Option ℚ
  | [], _ => (some 0, some 0, some 0)
  | x :: xs, [] =>
    let r := denseLoop xs []
    (none, nanAdd r.2.1 (some (x * x)), none)
  | x :: xs, y :: ys =>
    let r := denseLoop xs ys
    (nanAdd r.1 (some (x * y)), nanAdd r.2.1 (some (x * x)), nanAdd r.2.2 (some (y * y)))

/-- A vector in either of the two shapes of the embedding contract: a
sparse term-weight map or a dense numeric array. -/
inductive Embedding where
  | sparse (v : SparseVec)
  | dense (l : List ℚ)
  deriving DecidableEq, Repr

/-- `calculateSimilarity(emb1, emb2)` from utils/vectorUtils.js, with a
`NaN`-aware result (`none` is `NaN`).  The sparse branch delegates to
`cosineSimilarity` (which never yields `NaN`); the dense branch computes
the raw cosine from the loop accumulators — unrounded, and `NaN` when the
second array is shorter than the first — returning 0 only when the
magnitude is an actual 0 (`NaN === 0` is false in JS).  (Mixed shapes are
out of scope of the specification's same-shape contract and are modelled
as the final `return 0` of the source.) -/
def calculateSimilarity (e1 e2 : Embedding) : Option ℚ :=
  match e1, e2 with
  | .sparse v1, .sparse v2 => some (cosineSimilarity v1 v2)
  | .dense l1, .dense l2 =>
    let r := denseLoop l1 l2
    let magnitude := nanMul (r.2.1.map ratSqrt) (r.2.2.map ratSqrt)
    if magnitude = some 0 then some 0 else nanDiv r.1 magnitude
  | _, _ => some 0

/-! ## Character and string scanning (the regexes of textAnalysis.js) -/

/-- JS regex `\w`: `[A-Za-z0-9_]`. -/
def isWordChar (c : Char) : Bool :=
  ('a' ≤ c && c ≤ 'z') || ('A' ≤ c && c ≤ 'Z') || ('0' ≤ c && c ≤ '9') || c = '_'

/-- ASCII digit. -/
def isDigitChar (c : Char) : Bool := '0' ≤ c && c ≤ '9'

/-- JS regex `\s` on the whitespace the inputs contain. -/
def isSpaceChar (c : Char) : Bool :=
  c = ' ' || c = '\t' || c = '\n' || c = '\r'

/-- Sentence-ending character of the split regex `[.!?]+`. -/
def isEnderChar (c : Char) : Bool := c = '.' || c = '!' || c = '?'

/-- A word boundary on the far side of a pattern occurrence: holds at the
edge of the string or next to a non-word character (the patterns matched
below begin and end with word characters). -/
def boundaryOk : Option Char → Bool
  | none => true
  | some c => !isWordChar c

/-- Does the word-character phrase `pat` occur in `s` with `\b` on both
sides?  `prev` is the character just before the current position. -/
def hasPhraseAux (pat : List Char) : Option Char → List Char → Bool
  | _, [] => pat = []
  | prev, c :: cs =>
    (boundaryOk prev && List.isPrefixOf pat (c :: cs) &&
      boundaryOk (((c :: cs).drop pat.length).head?))
    || hasPhraseAux pat (some c) cs

/-- `new RegExp("\\b" + pat + "\\b").test(s)` for a phrase of word
characters (possibly with internal spaces, as in `must not`). -/
def hasPhrase (s pat : String) : Bool :=
  if pat.data = [] then true else hasPhraseAux pat.data none s.data

/-- Case-insensitive `\b(w1|w2|...)\b` test, as in the factual-indicator and
negation regexes (all flagged `i`). -/
def hasAnyWordCI (s : String) (ws : List String) : Bool :=
  ws.any (fun w => hasPhrase s.toLower w)

/-- Test of the numeric factual-indicator regex `\b(\d+\.?\d*)\b`: some
maximal digit run starts at a word boundary and is followed by the end of
the string or a non-word character (a following `.` is itself a non-word
character, closing the match after the integer part, exactly as the regex
backtracks). -/
def containsNumTokenAux : Option Char → List Char → Bool
  | _, [] => false
  | prev, c :: cs =>
    (isDigitChar c && boundaryOk prev &&
      boundaryOk (((c :: cs).dropWhile isDigitChar).head?))
    || containsNumTokenAux (some c) cs

/-- `/\b(\d+\.?\d*)\b/.test(s)`. -/
def containsNumToken (s : String) : Bool := containsNumTokenAux none s.data

mutual

/-- Split on the regex `[.!?]+` (runs of sentence enders), keeping empty
segments as `String.prototype.split` does; the companion function consumes
the rest of a run after a flush. -/
def splitSentencesAux : List Char → List Char → List String
  | [], cur => [String.mk cur.reverse]
  | c :: cs, cur =>
    if isEnderChar c then String.mk cur.reverse :: splitSentencesSkip cs
    else splitSentencesAux cs (c :: cur)

/-- Companion of `splitSentencesAux`: skip the remainder of a run of
sentence enders, then resume accumulating. -/
def splitSentencesSkip : List Char → List String
  | [] => [""]
  | c :: cs => if isEnderChar c then splitSentencesSkip cs else splitSentencesAux cs [c]

end

/-- `text.split(/[.!?]+/)`. -/
def splitSentences (s : String) : List String := splitSentencesAux s.data []

/-- JS `String.prototype.trim` on the whitespace the inputs contain. -/
def jsTrim (s : String) : String :=
  String.mk (((s.data.dropWhile isSpaceChar).reverse.dropWhile isSpaceChar).reverse)

/-- The four factual-indicator patterns of `extractKeyStatements`. -/
def factualIndicator (sentence : String) : Bool :=
  hasAnyWordCI sentence ["must", "shall", "should", "will", "always", "never", "required", "mandatory"]
  || hasAnyWordCI sentence ["step", "process", "procedure", "method", "approach"]
  || hasAnyWordCI sentence ["version", "release", "update", "deploy"]
  || containsNumToken sentence

/-- `extractKeyStatements(text)` from utils/textAnalysis.js: sentence-split,
trim, keep sentences longer than 20 characters, keep those matching a
factual indicator.  A `null` or non-string text yields `[]`. -/
def extractKeyStatements (text : Option String) : List String :=
  match text with
  | none => []
  | some t =>
    (((splitSentences t).map jsTrim).filter (fun s => 20 < s.length)).filter factualIndicator

/-! ## The numeric-unit regex `(\d+\.?\d*)\s*(days?|hours?|minutes?|weeks?|%|percent)` -/

/-- The unit alternation in the order the regex tries it (each `s?` is
greedy, so the plural precedes the singular). -/
def unitAlternatives : List String :=
  ["days", "day", "hours", "hour", "minutes", "minute", "weeks", "week", "%", "percent"]

/-- First unit alternative that is a prefix of `cs`. -/
def firstUnit (cs : List Char) : Option String :=
  unitAlternatives.find? (fun u => List.isPrefixOf u.data cs)

/-- After the numeric part of a match, consume `\s*` and a unit;
`numPart` is the text matched by the capture group `(\d+\.?\d*)` so far
and `n` the length matched so far.  Returns (number group, unit group,
total match length). -/
def matchTail (numPart : List Char) (n : ℕ) (rest : List Char) :
    Option (String × String × ℕ) :=
  let sp := rest.takeWhile isSpaceChar
  let rest2 := rest.drop sp.length
  match firstUnit rest2 with
  | some u => some (String.mk numPart, u, n + sp.length + u.length)
  | none => none

/-- Try to match the numeric-unit regex at the start of `cs`: maximal
digits, an optional `.` with further digits (retried without the `.` if no
unit follows, as the regex backtracks), whitespace, then a unit. -/
def matchNumUnitAt (cs : List Char) : Option (String × String × ℕ) :=
  let d1 := cs.takeWhile isDigitChar
  if d1 = [] then none
  else
    let rest1 := cs.drop d1.length
    match rest1 with
    | '.' :: rest2 =>
      let d2 := rest2.takeWhile isDigitChar
      (matchTail (d1 ++ '.' :: d2) (d1.length + 1 + d2.length) (rest2.drop d2.length)).orElse
        (fun _ => matchTail d1 d1.length rest1)
    | _ => matchTail d1 d1.length rest1

/-- `[...s.matchAll(numPattern)]` restricted to the two capture groups:
scan left to right, resuming after each match.  The fuel is the length of
the string; every match consumes at least one character, so it never runs
out. -/
def scanNumUnitsAux : ℕ → List Char → List (String × String)
  | 0, _ => []
  | _, [] => []
  | fuel + 1, c :: cs =>
    match matchNumUnitAt (c :: cs) with
    | some (num, u, len) => (num, u) :: scanNumUnitsAux fuel ((c :: cs).drop len)
    | none => scanNumUnitsAux fuel cs

/-- The list of `(number, unit)` capture-group pairs of all matches. -/
def scanNumUnits (s : String) : List (String × String) :=
  scanNumUnitsAux s.data.length s.data

/-- `s.replace(numPattern, '')`: delete every match, keep everything else. -/
def stripNumUnitsAux : ℕ → List Char → List Char
  | 0, cs => cs
  | _, [] => []
  | fuel + 1, c :: cs =>
    match matchNumUnitAt (c :: cs) with
    | some (_, _, len) => stripNumUnitsAux fuel ((c :: cs).drop len)
    | none => c :: stripNumUnitsAux fuel cs

/-- `s.replace(numPattern, '')` as a string. -/
def stripNumUnits (s : String) : String :=
  String.mk (stripNumUnitsAux s.data.length s.data)

/-- `unit.toLowerCase().replace(/s$/, '')`: drop one trailing `s` (the
inputs are already lowercase). -/
def stripTrailingS (s : String) : String :=
  match s.data.reverse with
  | 's' :: rest => String.mk rest.reverse
  | _ => s

/-! ## TF-IDF embedding and statement comparison (utils/textAnalysis.js) -/

section TextAnalysis

-- The `listTerms` statistics of the external `natural` TF-IDF provider
-- for a one-document corpus, as a parameter: the core is verified for every
-- provider honouring the text-to-vector contract of the specification.
variable (tfidf : String → List (String × ℚ))

/-- `generateTfIdfEmbedding(text)`: `{}` for a missing or non-string text,
otherwise the provider terms of the lowercased text with weight above 0.1,
each weight rounded to 3 decimal places. -/
def generateTfIdfEmbedding (text : Option String) : SparseVec :=
  match text with
  | none => []
  | some t => ((tfidf t.toLower).filter (fun p => 1 / 10 < p.2)).map (fun p => (p.1, round3 p.2))

/-- Result of `detectStatementContradiction`. -/
structure StmtCheck where
  isContradiction : Bool
  score : ℚ
  reason : Option String
  deriving DecidableEq, Repr

/-- The fixed table of opposite-polarity phrase pairs (`negationPatterns`);
the first component is the positive regex body, the second the list of
negative alternatives. -/
def negationPatterns : List (String × List String) :=
  [("must", ["must not", "should not"]),
   ("always", ["never"]),
   ("required", ["optional", "not required"]),
   ("enable", ["disable"])]

/-- One polarity test of the negation loop:
`(pos.test(s1) && neg.test(s2)) || (neg.test(s1) && pos.test(s2))`. -/
def polarityMatch (s1 s2 : String) (p : String × List String) : Bool :=
  (hasPhrase s1 p.1 && p.2.any (hasPhrase s2))
  || (p.2.any (hasPhrase s1) && hasPhrase s2 p.1)

/-- The negation-pattern loop of `detectStatementContradiction`: the first
pattern with crossed polarity and full-statement similarity above 0.3 ends
the function (the similarity of the two full statements does not depend on
the pattern, so it is a parameter here). -/
def negationLoop (s1 s2 : String) (sim : ℚ) : List (String × List String) → Option StmtCheck
  | [] => none
  | p :: ps =>
    if polarityMatch s1 s2 p && decide ((3 : ℚ) / 10 < sim) then
      some ⟨true, sim, some "Contradicting requirements detected"⟩
    else negationLoop s1 s2 sim ps

/-- The nested numeric loop of `detectStatementContradiction`: the first
pair of matches with the same singularised unit and different number
strings, whose stripped-statement similarity exceeds 0.4, ends the
function.  `sim` is the similarity of the two statements with every
numeric-unit match removed (independent of the pair). -/
def numericLoop (sim : ℚ) : List (String × String) → List (String × String) → Option StmtCheck
  | [], _ => none
  | n1 :: ns1, ns2 =>
    match ns2.find? (fun n2 =>
        stripTrailingS n1.2.toLower = stripTrailingS n2.2.toLower && n1.1 ≠ n2.1
        && decide ((2 : ℚ) / 5 < sim)) with
    | some n2 =>
      some ⟨true, sim,
        some ("Numerical conflict: " ++ n1.1 ++ " " ++ n1.2 ++ " vs " ++ n2.1 ++ " " ++ n2.2)⟩
    | none => numericLoop sim ns1 ns2

/-- `detectStatementContradiction(stmt1, stmt2)` from utils/textAnalysis.js. -/
def detectStatementContradiction (stmt1 stmt2 : String) : StmtCheck :=
  let s1 := stmt1.toLower
  let s2 := stmt2.toLower
  let fullSim := cosineSimilarity (generateTfIdfEmbedding tfidf (some s1))
    (generateTfIdfEmbedding tfidf (some s2))
  match negationLoop s1 s2 fullSim negationPatterns with
  | some r => r
  | none =>
    let nums1 := scanNumUnits s1
    let nums2 := scanNumUnits s2
    if nums1 ≠ [] && nums2 ≠ [] then
      let strippedSim := cosineSimilarity
        (generateTfIdfEmbedding tfidf (some (stripNumUnits s1)))
        (generateTfIdfEmbedding tfidf (some (stripNumUnits s2)))
      match numericLoop strippedSim nums1 nums2 with
      | some r => r
      | none => ⟨false, 0, none⟩
    else ⟨false, 0, none⟩

/-- `calculateSemanticDifference(text1, text2)`: `1 − cosineSimilarity` of
the two TF-IDF embeddings, rounded to 3 decimal places. -/
def calculateSemanticDifference (text1 text2 : Option String) : ℚ :=
  round3 (1 - cosineSimilarity (generateTfIdfEmbedding tfidf text1)
    (generateTfIdfEmbedding tfidf text2))

end TextAnalysis

/-! ## Data model -/

/-- A previous version of a document (`VersionSnapshot`). -/
structure Version where
  versionNumber : ℕ
  content : Option String
  embedding : Option SparseVec
  summary : Option String
  deriving DecidableEq, Repr

/-- A document snapshot as the decay core consumes it.  `content` is
`none` for a `null` content; `embedding` is `none` when the field is
absent (`some []` models a present empty `{}`, which is truthy in JS);
date fields follow `JsDateField`. -/
structure Document where
  id : String
  title : String
  type : String
  content : Option String
  currentVersion : ℕ
  updatedAt : JsDateField
  lastVerifiedAt : JsDateField
  embedding : Option SparseVec
  versions : List Version
  deriving DecidableEq, Repr

/-- A decay reason `{type, description, sources}`. -/
structure DecayReason where
  type : String
  description : String
  sources : List String
  deriving DecidableEq, Repr

/-! ## Contradiction detector (services/contradictionDetector.js) -/

/-- A recorded contradiction: the source nests `thisDocument` and
`conflictsWith` objects; the fields are flattened here. -/
structure Contradiction where
  thisStatement : String
  thisDocumentId : String
  otherStatement : String
  otherDocumentId : String
  otherDocumentTitle : String
  severity : String
  reason : Option String
  deriving DecidableEq, Repr

/-- `isMoreAuthoritative(doc1, doc2)`: the fixed authority ranking
SOP 5, Policy 4, Spec 3, Guide 2, Notes 1, anything else 1. -/
def typeRank (t : String) : ℕ :=
  if t = "SOP" then 5
  else if t = "Policy" then 4
  else if t = "Spec" then 3
  else if t = "Guide" then 2
  else 1

/-- `isMoreAuthoritative(doc1, doc2)` from contradictionDetector.js. -/
def isMoreAuthoritative (doc1 doc2 : Document) : Bool :=
  typeRank doc2.type < typeRank doc1.type

/-- `calculateContradictionPenalty(contradictions)`: 0 on the empty list,
otherwise `min(0.4, round3(0.15·#high + 0.08·#medium))`. -/
def calculateContradictionPenalty (contradictions : List Contradiction) : ℚ :=
  if contradictions = [] then 0
  else
    let highSeverity := (contradictions.filter (fun c => c.severity = "high")).length
    let mediumSeverity := (contradictions.filter (fun c => c.severity = "medium")).length
    jsMin (4 / 10) (round3 ((highSeverity : ℚ) * (15 / 100) + (mediumSeverity : ℚ) * (8 / 100)))

/-- `truncate(text, maxLen)` from contradictionDetector.js. -/
def truncate (text : String) (maxLen : ℕ) : String :=
  if text.length ≤ maxLen then text
  else String.mk (text.data.take (maxLen - 3)) ++ "..."

/-- Result of `detectContradictions`.  The early return of the source (no
related documents) carries no `decayReasons` field; the orchestrator skips
an absent field exactly as it skips an empty list, so it is `[]` here. -/
structure ContradictionResult where
  hasContradictions : Bool
  contradictions : List Contradiction
  penalty : ℚ
  decayReasons : List DecayReason
  deriving DecidableEq, Repr

section Detector

variable (tfidf : String → List (String × ℚ))

/-- The statement cross-comparison of `detectContradictions` for one
related document: every pair of key statements, in source order. -/
def compareStatements (document : Document) (docStatements : List String)
    (relatedDoc : Document) : List Contradiction :=
  docStatements.flatMap (fun stmt1 =>
    (extractKeyStatements relatedDoc.content).filterMap (fun stmt2 =>
      let result := detectStatementContradiction tfidf stmt1 stmt2
      if result.isContradiction then
        some ⟨stmt1, document.id, stmt2, relatedDoc.id, relatedDoc.title,
          if (6 : ℚ) / 10 < result.score then "high" else "medium", result.reason⟩
      else none))

/-- `detectContradictions(document, relatedDocs)` from
contradictionDetector.js. -/
def detectContradictions (document : Document) (relatedDocs : List Document) :
    ContradictionResult :=
  if relatedDocs = [] then ⟨false, [], 0, []⟩
  else
    let docStatements := extractKeyStatements document.content
    let contradictions := relatedDocs.flatMap (fun relatedDoc =>
      if jsDateLt (parseDateField relatedDoc.updatedAt) (parseDateField document.updatedAt)
          && !isMoreAuthoritative relatedDoc document then
        []
      else compareStatements tfidf document docStatements relatedDoc)
    let penalty := calculateContradictionPenalty contradictions
    let decayReasons := contradictions.map (fun c =>
      DecayReason.mk "contradiction"
        ("\"" ++ truncate c.thisStatement 60 ++ "\" conflicts with \""
          ++ truncate c.otherStatement 60 ++ "\" in \"" ++ c.otherDocumentTitle ++ "\"")
        [c.otherDocumentId])
    ⟨contradictions ≠ [], contradictions, penalty, decayReasons⟩

/-- Descending-similarity ordering used to model
`.sort((a, b) => b.similarity - a.similarity)`. -/
def simDesc (a b : Document × ℚ) : Prop := b.2 ≤ a.2

instance : DecidableRel simDesc := fun a b => inferInstanceAs (Decidable (b.2 ≤ a.2))

instance : IsTotal (Document × ℚ) simDesc := ⟨fun a b => le_total b.2 a.2⟩

instance : IsTrans (Document × ℚ) simDesc := ⟨fun _ _ _ h h' => le_trans h' h⟩

/-- `findRelatedDocuments(document, allDocs, threshold = 0.3)` from
contradictionDetector.js: drop the subject, score every other candidate,
keep those at or above the threshold, sort by similarity descending.
The JS `{...d, similarity}` spread is modelled as the pair of the document
and its similarity. -/
def findRelatedDocuments (document : Document) (allDocs : List Document)
    (threshold : ℚ := 3 / 10) : List (Document × ℚ) :=
  let docEmbedding := document.embedding.getD (generateTfIdfEmbedding tfidf document.content)
  List.insertionSort simDesc
    (((allDocs.filter (fun d => d.id ≠ document.id)).map (fun d =>
      (d, cosineSimilarity docEmbedding
        (d.embedding.getD (generateTfIdfEmbedding tfidf d.content))))).filter
      (fun p => threshold ≤ p.2))

end Detector

/-! ## Freshness evaluator (services/freshnessEvaluator.js) -/

/-- The `DECAY_THRESHOLDS` table, `(warning, critical)` in days; a type
outside the table falls back to the `Notes` pair. -/
def DECAY_THRESHOLDS (type : String) : ℤ × ℤ :=
  if type = "SOP" then (30, 90)
  else if type = "Policy" then (60, 180)
  else if type = "Guide" then (90, 365)
  else if type = "Spec" then (45, 120)
  else (180, 365)

/-- `calculateAgeDays(updatedAt)`: floor of the difference to `now` in
whole days; `NaN` (`none`) propagates. -/
def calculateAgeDays (now : ℤ) (updated : JsDate) : JsDate :=
  updated.map (fun u => Int.fdiv (now - u) 86400000)

/-- Result of `evaluateFreshness`. -/
structure FreshnessResult where
  status : String
  ageDays : JsDate
  penalty : ℚ
  decayReason : Option DecayReason
  deriving DecidableEq, Repr

/-- `evaluateFreshness(document)` from freshnessEvaluator.js, with the
call-time clock `now` explicit.  The reference date is
`lastVerifiedAt || updatedAt`; an unparseable or absent reference yields a
`NaN` age, on which both threshold comparisons are false. -/
def evaluateFreshness (now : ℤ) (document : Document) : FreshnessResult :=
  let thresholds := DECAY_THRESHOLDS document.type
  let referenceDate := jsOrField document.lastVerifiedAt document.updatedAt
  let ageDays := calculateAgeDays now (parseDateField referenceDate)
  if jsDateGe ageDays thresholds.2 then
    let a := ageDays.getD 0
    ⟨"critical", ageDays, round3 (3 / 10),
      some ⟨"time",
        "Document last updated " ++ toString a ++ " days ago (" ++ document.type
          ++ " critical threshold: " ++ toString thresholds.2 ++ " days)", []⟩⟩
  else if jsDateGe ageDays thresholds.1 then
    let a := ageDays.getD 0
    let range : ℚ := ((thresholds.2 - thresholds.1 : ℤ) : ℚ)
    let overWarning : ℚ := ((a - thresholds.1 : ℤ) : ℚ)
    ⟨"warning", ageDays, round3 (1 / 10 + (2 / 10) * (overWarning / range)),
      some ⟨"time",
        "Document last updated " ++ toString a ++ " days ago (" ++ document.type
          ++ " warning threshold: " ++ toString thresholds.1 ++ " days)", []⟩⟩
  else ⟨"fresh", ageDays, round3 0, none⟩

/-! ## Confidence scorer (services/confidenceScorer.js) -/

/-- `WEIGHT_AGE_PENALTY` default. -/
def MAX_AGE_PENALTY : ℚ := 3 / 10

/-- `WEIGHT_CONTRADICTION_PENALTY` default. -/
def MAX_CONTRADICTION_PENALTY : ℚ := 4 / 10

/-- `WEIGHT_DRIFT_PENALTY` default. -/
def MAX_DRIFT_PENALTY : ℚ := 2 / 10

/-- `WEIGHT_SUPPORT_PENALTY` default. -/
def MAX_SUPPORT_PENALTY : ℚ := 1 / 10

/-- The `ConfidenceBreakdown` audit object. -/
structure Breakdown where
  starting_confidence : ℚ
  age_penalty : ℚ
  contradiction_penalty : ℚ
  drift_penalty : ℚ
  support_penalty : ℚ
  total_penalty : ℚ
  final_confidence : ℚ
  deriving DecidableEq, Repr

/-- The support penalty of `calculateConfidence`: full maximum for zero
supporting documents, `max · (1 − count/3)` for one or two, zero from
three on. -/
def appliedSupportPenalty (supportingDocsCount : ℕ) : ℚ :=
  if supportingDocsCount = 0 then MAX_SUPPORT_PENALTY
  else if supportingDocsCount < 3 then
    MAX_SUPPORT_PENALTY * (1 - (supportingDocsCount : ℚ) / 3)
  else 0

/-- `calculateConfidence({agePenalty, contradictionPenalty, driftPenalty,
supportingDocsCount})` from confidenceScorer.js: subtract the four capped
penalties from 1, clamp to [0,1], round to 2 decimals, and record the
audit breakdown (3-decimal rounding of each applied penalty;
`total_penalty` is recomputed from the already-rounded confidence). -/
def calculateConfidence (agePenalty contradictionPenalty driftPenalty : ℚ)
    (supportingDocsCount : ℕ) : ℚ × Breakdown :=
  let appliedAgePenalty := jsMin agePenalty MAX_AGE_PENALTY
  let appliedContradictionPenalty := jsMin contradictionPenalty MAX_CONTRADICTION_PENALTY
  let appliedDriftPenalty := jsMin driftPenalty MAX_DRIFT_PENALTY
  let supportPenalty := appliedSupportPenalty supportingDocsCount
  let raw := 1 - appliedAgePenalty - appliedContradictionPenalty
    - appliedDriftPenalty - supportPenalty
  let confidence := round2 (jsMax 0 (jsMin raw 1))
  (confidence,
    ⟨1, round3 appliedAgePenalty, round3 appliedContradictionPenalty,
      round3 appliedDriftPenalty, round3 supportPenalty,
      round3 (1 - confidence), confidence⟩)

/-- `determineRiskLevel(confidence, signals)` from confidenceScorer.js;
the `signals` object is passed field by field. -/
def determineRiskLevel (confidence : ℚ) (hasContradictions : Bool)
    (hasSignificantDrift : Bool) (freshnessStatus : String) : String :=
  if hasContradictions || decide (confidence < 4 / 10) then "high"
  else if hasSignificantDrift || freshnessStatus = "critical" || decide (confidence < 7 / 10) then
    "medium"
  else "low"

/-- `shouldFlagDecay(confidence, riskLevel)` from confidenceScorer.js. -/
def shouldFlagDecay (confidence : ℚ) (riskLevel : String) : Bool :=
  decide (confidence < 1) || riskLevel ≠ "low"

/-! ## Version drift analyzer (services/versionDriftAnalyzer.js) -/

/-- `SIGNIFICANT_DRIFT_THRESHOLD`. -/
def SIGNIFICANT_DRIFT_THRESHOLD : ℚ := 4 / 10

/-- `MODERATE_DRIFT_THRESHOLD`. -/
def MODERATE_DRIFT_THRESHOLD : ℚ := 1 / 4

/-- Render a nonnegative multiple of 1/1000 the way JS prints the number
(`0.35`, `0.3`, `0`, `1`); every drift score interpolated into a
description is such a value.  Other rationals fall back to a
numerator/denominator rendering (never reached by the pipeline). -/
def renderQ3 (q : ℚ) : String :=
  if q.den ∣ 1000 ∧ 0 ≤ q.num then
    let k := (q.num.toNat * (1000 / q.den))
    let intPart := k / 1000
    let frac := k % 1000
    if frac = 0 then toString intPart
    else
      let digits := (toString (1000 + frac)).drop 1
      let trimmed := String.mk (digits.data.reverse.dropWhile (fun c => c = '0')).reverse
      toString intPart ++ "." ++ trimmed
  else toString q.num ++ "/" ++ toString q.den

/-- One entry of the `changes` list of `analyzeVersionDrift`. -/
structure DriftChange where
  fromVersion : ℕ
  toVersion : ℕ
  driftScore : ℚ
  severity : String
  summary : String
  deriving DecidableEq, Repr

/-- Result of `analyzeVersionDrift`. -/
structure DriftResult where
  hasDrift : Bool
  hasSignificantDrift : Bool
  driftScore : ℚ
  penalty : ℚ
  changes : List DriftChange
  decayReason : Option DecayReason
  deriving DecidableEq, Repr

section Drift

variable (tfidf : String → List (String × ℚ))

/-- The semantic difference of one version against the current content,
as `analyzeVersionDrift` computes it (the `versionEmbedding` local of the
source is dead code: the difference is recomputed from the two raw
contents). -/
def versionDrift (document : Document) (version : Version) : ℚ :=
  calculateSemanticDifference tfidf document.content version.content

/-- The non-empty branch of `analyzeVersionDrift(document, versions)`. -/
def analyzeVersionDriftCore (document : Document) (versions : List Version) : DriftResult :=
    let maxDrift := versions.foldl
      (fun m v => let d := versionDrift tfidf document v; if m < d then d else m) 0
    let changes := versions.filterMap (fun v =>
      let drift := versionDrift tfidf document v
      if MODERATE_DRIFT_THRESHOLD ≤ drift then
        some ⟨v.versionNumber, document.currentVersion, drift,
          if SIGNIFICANT_DRIFT_THRESHOLD ≤ drift then "significant" else "moderate",
          v.summary.getD ("Version " ++ toString v.versionNumber)⟩
      else none)
    let significantChanges := changes.filter (fun c => c.severity = "significant")
    let hasSignificantDrift := significantChanges ≠ []
    let penalty : ℚ :=
      if SIGNIFICANT_DRIFT_THRESHOLD ≤ maxDrift then 2 / 10
      else if MODERATE_DRIFT_THRESHOLD ≤ maxDrift then 1 / 10
      else 0
    let decayReason := significantChanges.head?.map (fun mostRecent =>
      DecayReason.mk "version_drift"
        ("Significant semantic change detected from version "
          ++ toString mostRecent.fromVersion ++ " to " ++ toString mostRecent.toVersion
          ++ " (drift score: " ++ renderQ3 mostRecent.driftScore ++ ")") [])
    ⟨decide (MODERATE_DRIFT_THRESHOLD ≤ maxDrift), hasSignificantDrift,
      round3 maxDrift, round3 penalty, changes, decayReason⟩

/-- `analyzeVersionDrift(document, versions)` from versionDriftAnalyzer.js:
the guard for an absent or empty versions list, then the drift scan. -/
def analyzeVersionDrift (document : Document) (versions : List Version) : DriftResult :=
  if versions = [] then ⟨false, false, 0, 0, [], none⟩
  else analyzeVersionDriftCore tfidf document versions

end Drift

/-! ## Update generator (services/updateGenerator.js) -/

/-- One update recommendation. -/
structure Recommendation where
  section_ : String
  suggested_text : String
  reason : String
  priority : String
  deriving DecidableEq, Repr

/-- `extractDays(description)`: first match of `/(\d+)\s*days?\s*ago/i`,
returning the digit group, else `"N"`.  The scan mirrors the regex:
maximal digits, whitespace, `day` with an optional greedy `s`, whitespace,
`ago`, case-insensitively. -/
def matchDaysAgoAt (cs : List Char) : Option String :=
  let d := cs.takeWhile isDigitChar
  if d = [] then none
  else
    let r1 := (cs.drop d.length)
    let r2 := r1.drop (r1.takeWhile isSpaceChar).length
    let afterDay :=
      if List.isPrefixOf "days".data r2 then some (r2.drop 4)
      else if List.isPrefixOf "day".data r2 then some (r2.drop 3)
      else none
    match afterDay with
    | none => none
    | some r3 =>
      let r4 := r3.drop (r3.takeWhile isSpaceChar).length
      if List.isPrefixOf "ago".data r4 then some (String.mk d) else none

/-- Left-to-right search for `extractDays`. -/
def extractDaysAux : Option Char → List Char → Option String
  | _, [] => none
  | prev, c :: cs =>
    match if !(prev.any isDigitChar) then matchDaysAgoAt (c :: cs) else none with
    | some d => some d
    | none => extractDaysAux (some c) cs

/-- `extractDays(description)` from updateGenerator.js. -/
def extractDays (description : String) : String :=
  (extractDaysAux none description.toLower.data).getD "N"

/-- `extractSection(description)`: the first `"..."`-quoted substring,
truncated to 50 characters, else `Conflicting Section`. -/
def extractSectionAux : List Char → Option String
  | [] => none
  | '"' :: cs =>
    let inner := cs.takeWhile (fun c => c ≠ '"')
    if inner ≠ [] ∧ inner.length < cs.length then some (String.mk (inner.take 50))
    else extractSectionAux cs
  | _ :: cs => extractSectionAux cs

/-- `extractSection(description)` from updateGenerator.js. -/
def extractSection (description : String) : String :=
  (extractSectionAux description.data).getD "Conflicting Section"

section UpdateGen

-- `formatDate` renders a date via `toLocaleDateString('en-US', ...)`,
-- whose output depends on the process locale and timezone; it is a
-- parameter, and no claim observes the string it produces.
variable (formatDate : JsDateField → String)

/-- `generateTimeBasedUpdate(document, reason)`. -/
def generateTimeBasedUpdate (document : Document) (reason : DecayReason) : Recommendation :=
  ⟨"Document Review Required",
    "[REVIEW NEEDED] This " ++ document.type ++ " was last updated "
      ++ extractDays reason.description
      ++ " days ago. Please verify that all information is still current and accurate. Key areas to check:\n- Process steps and procedures\n- Referenced tools and versions\n- Contact information and responsible parties\n- Compliance requirements",
    reason.description, "medium"⟩

/-- `generateContradictionUpdate(document, reason, newerDocs)`. -/
def generateContradictionUpdate (document : Document) (reason : DecayReason)
    (newerDocs : List Document) : Recommendation :=
  let conflictingDoc := newerDocs.find? (fun d => d.id ∈ reason.sources)
  let suggestedText :=
    match conflictingDoc with
    | some d =>
      "[CONFLICT DETECTED] This section may conflict with \"" ++ d.title
        ++ "\" (updated " ++ formatDate d.updatedAt
        ++ "). Please reconcile the following difference:\n\nCurrent document states different information than the newer source. Consider updating to align with the latest guidance."
    | none =>
      "[CONFLICT DETECTED] A conflicting statement was detected. Please review and update as needed."
  ⟨extractSection reason.description, suggestedText, reason.description, "high"⟩

/-- `generateDriftUpdate(document, reason)`. -/
def generateDriftUpdate (document : Document) (reason : DecayReason) : Recommendation :=
  ⟨"Version History Note",
    "[SIGNIFICANT CHANGES] This document has undergone substantial revisions. Previous versions may contain outdated information and should be considered historical reference only. Current version (v"
      ++ toString document.currentVersion ++ ") is the authoritative source.",
    reason.description, "low"⟩

/-- `generateSupportUpdate(document, reason)`. -/
def generateSupportUpdate (document : Document) (reason : DecayReason) : Recommendation :=
  ⟨"Verification Needed",
    "[LOW SUPPORTING EVIDENCE] This document has limited supporting documentation. Consider:\n- Adding references to related documents\n- Cross-referencing with team leads\n- Documenting sources for key claims",
    reason.description, "medium"⟩

/-- `generateWhatChangedSummary(decayReasons, newerDocs)`. -/
def generateWhatChangedSummary (decayReasons : List DecayReason)
    (newerDocs : List Document) : String :=
  if decayReasons = [] then "No significant changes detected."
  else
    let hasTime := decayReasons.any (fun r => r.type = "time")
    let hasContradiction := decayReasons.any (fun r => r.type = "contradiction")
    let hasDrift := decayReasons.any (fun r => r.type = "version_drift")
    let parts : List String :=
      (if hasTime then
        ["The document has not been reviewed recently and may contain outdated information."]
      else []) ++
      (if hasContradiction then
        let contradictions := decayReasons.filter (fun r => r.type = "contradiction")
        let docTitles := (newerDocs.filter (fun d =>
          contradictions.any (fun c => d.id ∈ c.sources))).map (fun d => d.title)
        if docTitles ≠ [] then
          ["Conflicting information was found in: " ++ String.intercalate ", " docTitles ++ "."]
        else ["Conflicting information was detected in related documents."]
      else []) ++
      (if hasDrift then ["Significant semantic changes were made in recent versions."] else [])
    let joined := String.intercalate " " parts
    if joined = "" then "Decay signals detected. Review recommended." else joined

/-- Result of `generateUpdateRecommendations` (the fixed
`requiresHumanReview` and `reviewInstructions` fields are constants of the
source and are omitted). -/
structure UpdateResult where
  recommendations : List Recommendation
  whatChangedSummary : String
  deriving DecidableEq, Repr

/-- `generateUpdateRecommendations(document, decayAnalysis, newerDocs)`
from updateGenerator.js: one templated recommendation per decay reason
(reasons of other types produce nothing), plus the what-changed summary.
No generator returns `null`, so the source's null filter keeps all. -/
def generateUpdateRecommendations (document : Document)
    (decayReasons : List DecayReason) (newerDocs : List Document) : UpdateResult :=
  let recommendations := decayReasons.filterMap (fun reason =>
    if reason.type = "time" then some (generateTimeBasedUpdate document reason)
    else if reason.type = "contradiction" then
      some (generateContradictionUpdate formatDate document reason newerDocs)
    else if reason.type = "version_drift" then some (generateDriftUpdate document reason)
    else if reason.type = "low_support" then some (generateSupportUpdate document reason)
    else none)
  ⟨recommendations, generateWhatChangedSummary decayReasons newerDocs⟩

end UpdateGen

/-! ## Decay orchestrator (services/decayEngine.js) -/

/-- `getEmbedding(text)` of utils/vectorUtils.js under the default
`EMBEDDING_PROVIDER=tfidf`: the local TF-IDF embedding (the remote
provider branches are external collaborators and unreachable under the
default configuration). -/
def getEmbedding (tfidf : String → List (String × ℚ)) (text : Option String) : SparseVec :=
  generateTfIdfEmbedding tfidf text

/-- First-occurrence deduplication, as `[...new Set(list)]`: keep an
element when it has not been seen before. -/
def jsSetDedupAux (seen : List String) : List String → List String
  | [] => []
  | x :: xs =>
    if x ∈ seen then jsSetDedupAux seen xs else x :: jsSetDedupAux (x :: seen) xs

/-- `[...new Set(list)]`. -/
def jsSetDedup (l : List String) : List String := jsSetDedupAux [] l

/-- The public fields of the verdict `analyzeDocument` returns, plus the
`_internal` audit block (flattened with an `internal` prefix). -/
structure AnalyzeResult where
  decay_detected : Bool
  confidence_score : ℚ
  risk_level : String
  decay_reasons : List DecayReason
  what_changed_summary : String
  update_recommendations : List (String × String)
  citations : List String
  internal_confidence_breakdown : Breakdown
  internal_freshness_status : String
  internal_age_days : JsDate
  internal_contradictions : List Contradiction
  internal_drift_score : ℚ
  internal_has_significant_drift : Bool
  deriving DecidableEq, Repr

section Engine

variable (tfidf : String → List (String × ℚ)) (formatDate : JsDateField → String)

/-- `analyzeDocument({document, versions, relatedDocs, allDocs})` from
decayEngine.js, with the call-time clock `now` explicit.  The source
assigns `document.embedding` when the field is falsy, mutating the caller's
object; the second component of the result is the state of the document
after the call (the `versions`, `relatedDocs` and `allDocs` arrays are
never assigned to and are returned unchanged by construction).  Discovered
related documents carry a `similarity` field in JS; it is read by nothing
downstream and is dropped here. -/
def analyzeDocument (now : ℤ) (document : Document) (versions : List Version)
    (relatedDocs : List Document) (allDocs : List Document) :
    AnalyzeResult × Document :=
  let document' :=
    if document.embedding = none then
      { document with embedding := some (getEmbedding tfidf document.content) }
    else document
  let relatedDocs' :=
    if relatedDocs = [] ∧ allDocs ≠ [] then
      (findRelatedDocuments tfidf document' allDocs (3 / 10)).map Prod.fst
    else relatedDocs
  let freshnessResult := evaluateFreshness now document'
  let contradictionResult := detectContradictions tfidf document' relatedDocs'
  let driftResult := analyzeVersionDrift tfidf document' versions
  let scored := calculateConfidence freshnessResult.penalty contradictionResult.penalty
    driftResult.penalty relatedDocs'.length
  let confidence := scored.1
  let breakdown := scored.2
  let riskLevel := determineRiskLevel confidence contradictionResult.hasContradictions
    driftResult.hasSignificantDrift freshnessResult.status
  let decayReasons :=
    freshnessResult.decayReason.toList
      ++ contradictionResult.decayReasons
      ++ driftResult.decayReason.toList
      ++ (if relatedDocs' = [] ∧ 0 < breakdown.support_penalty then
            [DecayReason.mk "low_support"
              "No supporting documents found for cross-validation" []]
          else [])
  let decayDetected := shouldFlagDecay confidence riskLevel
  let updateResult :=
    if decayDetected then
      generateUpdateRecommendations formatDate document' decayReasons
        (relatedDocs'.filter (fun d =>
          jsDateLt (parseDateField document'.updatedAt) (parseDateField d.updatedAt)))
    else ⟨[], "No decay signals detected."⟩
  let citations :=
    (jsSetDedup ((decayReasons.flatMap (fun r => r.sources))
      ++ relatedDocs'.map (fun d => d.id))).filter (fun s => s ≠ "")
  (⟨decayDetected, confidence, riskLevel, decayReasons,
    updateResult.whatChangedSummary,
    updateResult.recommendations.map (fun r => (r.section_, r.suggested_text)),
    citations, breakdown, freshnessResult.status, freshnessResult.ageDays,
    contradictionResult.contradictions, driftResult.driftScore,
    driftResult.hasSignificantDrift⟩,
   document')

/-- One record of the `batchAnalyze` result list.  The success branch
spreads the analysis result after the id and title; the catch branch emits
the synthetic error record, whose extra fields are absent (`none`). -/
structure BatchRecord where
  documentId : String
  documentTitle : String
  error : Option String
  decay_detected : Bool
  confidence_score : ℚ
  risk_level : String
  decay_reasons : List DecayReason
  analysis : Option AnalyzeResult
  deriving DecidableEq, Repr

/-- The synthetic record the catch branch of `batchAnalyze` builds from a
thrown error message. -/
def errorRecord (document : Document) (msg : String) : BatchRecord :=
  ⟨document.id, document.title, some msg, false, 0, "high",
    [DecayReason.mk "error" ("Analysis failed: " ++ msg) []], none⟩

/-- The success record of `batchAnalyze` for one analysis result. -/
def okRecord (document : Document) (r : AnalyzeResult) : BatchRecord :=
  ⟨document.id, document.title, none, r.decay_detected, r.confidence_score,
    r.risk_level, r.decay_reasons, some r⟩

/-- `batchAnalyze(documents, allDocs)` from decayEngine.js: analyze each
document with its own `versions` field and no pre-supplied related
documents.  Under the default TF-IDF provider no statement reachable from
`analyzeDocument` throws (every helper guards missing content and dates),
so the catch branch producing `errorRecord` is never taken and every
record is a success record. -/
def batchAnalyze (now : ℤ) (documents : List Document) (allDocs : List Document) :
    List BatchRecord :=
  documents.map (fun document =>
    okRecord document
      (analyzeDocument tfidf formatDate now document document.versions [] allDocs).1)

end Engine

/-! ## Concrete instances used by counterexamples and witnesses -/

/-- A TF-IDF provider instance for the deployment-statement example: the
stripped statement maps to its four content words (any weights above the
0.1 cut-off with a perfect-square norm serve; the similarity of a nonempty
vector with itself is 1 regardless). -/
def tfidfDeploy : String → List (String × ℚ) := fun s =>
  if s = "deployments must complete within " then
    [("deployments", 1 / 2), ("must", 1 / 2), ("complete", 1 / 2), ("within", 1 / 2)]
  else []

/-- A TF-IDF provider instance returning nothing (a legitimate provider:
no term reaches the 0.1 cut-off). -/
def tfidfEmpty : String → List (String × ℚ) := fun _ => []

/-- A date renderer instance for witnesses (claims never observe the
rendered string). -/
def formatDateNone : JsDateField → String := fun _ => ""

/-- The subject document of the specification's contradiction example:
statement "Deployments must complete within 5 minutes", updated
2024-01-01 (epoch ms). -/
def deploySubject : Document :=
  ⟨"doc-1", "Deployment SOP", "SOP", some "Deployments must complete within 5 minutes.",
    1, some (some 1704067200000), none, none, []⟩

/-- The newer related document of the example: "Deployments must complete
within 15 minutes", updated 2024-06-01 (epoch ms). -/
def deployRelated : Document :=
  ⟨"doc-2", "New Deployment Guide", "Guide",
    some "Deployments must complete within 15 minutes.",
    1, some (some 1717200000000), none, none, []⟩

/-- An SOP document last updated at epoch 0 and never verified, for the
40-day freshness example. -/
def sopFortyDoc : Document :=
  ⟨"doc-s", "SOP Doc", "SOP", some "content", 1, some (some 0), none, some [("t", 1)], []⟩

/-- A well-formed document for the batch example. -/
def batchGoodDoc : Document :=
  ⟨"doc-g", "Good Doc", "Notes", some "Regular content here", 2, some (some 0), none,
    some [("t", 1)], []⟩

/-- The malformed batch document: `content: null`, no dates, no embedding. -/
def batchNullDoc : Document :=
  ⟨"doc-n", "Null Doc", "Notes", none, 1, none, none, none, []⟩

/-- A document supplied without an embedding, to exhibit the embedding
assignment of `analyzeDocument`. -/
def mutationDoc : Document :=
  ⟨"doc-m", "Doc M", "Notes", some "hello", 1, some (some 0), none, none, []⟩

/-- A document with a stored embedding, for witnesses over
`findRelatedDocuments` and `analyzeVersionDrift`. -/
def witnessSubject : Document :=
  ⟨"doc-w", "Witness Doc", "Guide", some "alpha beta", 3, some (some 0), none,
    some [("alpha", 1)], []⟩

/-- Candidate pool for the `findRelatedDocuments` witness: one identical
embedding (similarity 1), one orthogonal (similarity 0), and the subject
itself. -/
def witnessPool : List Document :=
  [⟨"doc-w", "Witness Doc", "Guide", some "alpha beta", 3, some (some 0), none,
      some [("alpha", 1)], []⟩,
   ⟨"doc-x", "Pool X", "Notes", some "alpha", 1, some (some 0), none,
      some [("alpha", 1)], []⟩,
   ⟨"doc-y", "Pool Y", "Notes", some "gamma", 1, some (some 0), none,
      some [("gamma", 1)], []⟩]

/-- A prior version whose content the provider maps to an orthogonal
vector, so that its drift against `witnessSubject` is 1. -/
def witnessVersion : Version := ⟨2, some "delta", some [("delta", 1)], none⟩

/-- Provider instance for the drift witness: distinct single terms for the
two contents compared. -/
def tfidfWitness : String → List (String × ℚ) := fun s =>
  if s = "alpha beta" then [("alpha", 1)]
  else if s = "delta" then [("delta", 1)]
  else []

/-! ## Helper lemmas -/

set_option maxRecDepth 4000

theorem jsRound_eq_floor (q : ℚ) : jsRound q = ⌊q + 1/2⌋ := by
  have hb : (0:ℤ) < 2 * (q.den : ℤ) := by positivity
  have hbq : (0:ℚ) < ((2 * (q.den : ℤ) : ℤ) : ℚ) := by exact_mod_cast hb
  have h1 : (q.num : ℚ) = q * (q.den : ℚ) := by field_simp
  have hq : q + 1/2 = ((2 * q.num + (q.den : ℤ) : ℤ) : ℚ) / ((2 * (q.den : ℤ) : ℤ) : ℚ) := by
    rw [eq_div_iff hbq.ne']
    push_cast
    rw [h1]
    ring
  rw [jsRound, Int.fdiv_eq_ediv _ hb.le]
  symm
  rw [Int.floor_eq_iff]
  refine ⟨?_, ?_⟩
  · rw [hq, le_div_iff₀ hbq]
    exact_mod_cast Int.ediv_mul_le _ hb.ne'
  · rw [hq, div_lt_iff₀ hbq]
    exact_mod_cast Int.lt_ediv_add_one_mul_self _ hb

theorem jsRound_nonneg {q : ℚ} (h : 0 ≤ q) : 0 ≤ jsRound q := by
  rw [jsRound_eq_floor]
  exact Int.floor_nonneg.mpr (by linarith)

theorem jsRound_le {q : ℚ} {n : ℤ} (h : q ≤ n) : jsRound q ≤ n := by
  rw [jsRound_eq_floor]
  have : ⌊q + 1/2⌋ ≤ ⌊(n : ℚ) + 1/2⌋ := Int.floor_le_floor (by linarith)
  calc ⌊q + 1/2⌋ ≤ ⌊(n : ℚ) + 1/2⌋ := this
    _ = n := by
        rw [add_comm, Int.floor_add_int]
        norm_num

theorem round2_bounds {x : ℚ} (h0 : 0 ≤ x) (h1 : x ≤ 1) :
    0 ≤ round2 x ∧ round2 x ≤ 1 := by
  rw [round2]
  constructor
  · have := jsRound_nonneg (q := x * 100) (by linarith)
    positivity
  · have : jsRound (x * 100) ≤ (100 : ℤ) := jsRound_le (by push_cast; linarith)
    rw [div_le_one (by norm_num)]
    exact_mod_cast this

theorem jsMinMax_unit (r : ℚ) : 0 ≤ jsMax 0 (jsMin r 1) ∧ jsMax 0 (jsMin r 1) ≤ 1 := by
  rw [jsMin, jsMax]
  by_cases h1 : r ≤ 1
  · rw [if_pos h1]
    by_cases h2 : (0 : ℚ) ≤ r
    · rw [if_pos h2]
      exact ⟨h2, h1⟩
    · rw [if_neg h2]
      norm_num
  · rw [if_neg h1]
    norm_num

/-- The running-maximum fold of `analyzeVersionDrift` dominates its
initial value. -/
theorem foldlMax_ge_init {α : Type} (f : α → ℚ) (l : List α) (a : ℚ) :
    a ≤ l.foldl (fun m v => if m < f v then f v else m) a := by
  induction l generalizing a with
  | nil => simp
  | cons w l ih =>
    simp only [List.foldl_cons]
    refine le_trans ?_ (ih (if a < f w then f w else a))
    by_cases h : a < f w
    · rw [if_pos h]
      exact le_of_lt h
    · rw [if_neg h]

/-- The running-maximum fold dominates every listed value. -/
theorem foldlMax_ge_of_mem {α : Type} (f : α → ℚ) {l : List α} (a : ℚ) {v : α}
    (hv : v ∈ l) : f v ≤ l.foldl (fun m v => if m < f v then f v else m) a := by
  induction l generalizing a with
  | nil => cases hv
  | cons w l ih =>
    simp only [List.foldl_cons]
    rcases List.mem_cons.mp hv with h | h
    · subst h
      refine le_trans ?_ (foldlMax_ge_init f l _)
      by_cases hc : a < f v
      · rw [if_pos hc]
      · rw [if_neg hc]
        exact le_of_not_lt hc
    · exact ih _ h

/-- The running-maximum fold returns its initial value or a listed value. -/
theorem foldlMax_eq_init_or_mem {α : Type} (f : α → ℚ) (l : List α) (a : ℚ) :
    l.foldl (fun m v => if m < f v then f v else m) a = a
      ∨ ∃ v ∈ l, l.foldl (fun m v => if m < f v then f v else m) a = f v := by
  induction l generalizing a with
  | nil => exact Or.inl rfl
  | cons w l ih =>
    rcases ih (if a < f w then f w else a) with h | ⟨v, hv, h⟩
    · simp only [List.foldl_cons]
      rw [h]
      split
      · exact Or.inr ⟨w, List.mem_cons_self w l, rfl⟩
      · exact Or.inl rfl
    · exact Or.inr ⟨v, List.mem_cons_of_mem w hv, by simpa using h⟩

/-- Threshold characterisation of the running maximum started at 0. -/
theorem foldlMax_threshold {α : Type} (f : α → ℚ) (l : List α) {t : ℚ} (ht : 0 < t) :
    t ≤ l.foldl (fun m v => if m < f v then f v else m) 0 ↔ ∃ v ∈ l, t ≤ f v := by
  constructor
  · intro h
    rcases foldlMax_eq_init_or_mem f l 0 with h0 | ⟨v, hv, he⟩
    · rw [h0] at h
      exact absurd h (by linarith)
    · exact ⟨v, hv, he ▸ h⟩
  · rintro ⟨v, hv, hle⟩
    exact le_trans hle (foldlMax_ge_of_mem f 0 hv)

/-- Filtering with a stronger predicate never yields a longer list. -/
theorem length_filter_mono {α : Type} (l : List α) (p q : α → Bool)
    (h : ∀ x, p x = true → q x = true) :
    (l.filter p).length ≤ (l.filter q).length := by
  induction l with
  | nil => simp
  | cons x l ih =>
    simp only [List.filter_cons]
    by_cases hp : p x = true
    · rw [if_pos hp, if_pos (h x hp)]
      simpa using ih
    · rw [if_neg hp]
      split
      · exact le_trans ih (by simp)
      · exact ih

theorem round3_zero : round3 0 = 0 := by with_unfolding_all decide

theorem round3_three_tenths : round3 (3/10) = 3/10 := by with_unfolding_all decide

theorem round3_two_tenths : round3 (2/10) = 2/10 := by with_unfolding_all decide

theorem round3_one_tenth : round3 (1/10) = 1/10 := by with_unfolding_all decide

/-! ## C10 -/

/-- C10: when `updatedAt` and `lastVerifiedAt` are both absent or not
parseable as dates, `evaluateFreshness` does not fail and does not report
staleness: the computed age is `NaN` (modelled `none`), both threshold
comparisons are false, and the result is status `fresh` with penalty 0 and
no time-type decay reason. -/
theorem claim_C10_freshness_missing_dates (now : ℤ) (doc : Document)
    (hu : doc.updatedAt = none ∨ doc.updatedAt = some none)
    (hl : doc.lastVerifiedAt = none ∨ doc.lastVerifiedAt = some none) :
    (evaluateFreshness now doc).ageDays = none
    ∧ (evaluateFreshness now doc).status = "fresh"
    ∧ (evaluateFreshness now doc).penalty = 0
    ∧ (evaluateFreshness now doc).decayReason = none := by
  have href : parseDateField (jsOrField doc.lastVerifiedAt doc.updatedAt) = none := by
    rcases hu with h1 | h1 <;> rcases hl with h2 | h2 <;>
      simp [jsOrField, parseDateField, h1, h2]
  simp [evaluateFreshness, href, calculateAgeDays, jsDateGe, round3_zero]

/-- Witness for C10 at a concrete document with both date fields absent. -/
theorem claim_C10_witness :
    (evaluateFreshness 0 batchNullDoc).status = "fresh"
    ∧ (evaluateFreshness 0 batchNullDoc).penalty = 0 := by
  have h := claim_C10_freshness_missing_dates 0 batchNullDoc (Or.inl rfl) (Or.inl rfl)
  exact ⟨h.2.1, h.2.2.1⟩

/-! ## C1 -/

/-- C1: the public verdict satisfies `decay_detected = true` iff
`confidence_score < 1` or `risk_level ≠ "low"`; `shouldFlagDecay 1 "low"`
is `false` and every other combination with a confidence in the reachable
range (at most 1) flags decay. -/
theorem claim_C1_decay_flag (tfidf : String → List (String × ℚ))
    (formatDate : JsDateField → String) (now : ℤ) (document : Document)
    (versions : List Version) (relatedDocs allDocs : List Document) :
    (((analyzeDocument tfidf formatDate now document versions relatedDocs allDocs).1.decay_detected
        = true)
      ↔ ((analyzeDocument tfidf formatDate now document versions relatedDocs
            allDocs).1.confidence_score < 1
          ∨ (analyzeDocument tfidf formatDate now document versions relatedDocs
              allDocs).1.risk_level ≠ "low"))
    ∧ shouldFlagDecay 1 "low" = false
    ∧ (∀ c r, c ≤ 1 → ¬(c = 1 ∧ r = "low") → shouldFlagDecay c r = true) := by
  refine ⟨?_, by with_unfolding_all decide, ?_⟩
  · have hd : (analyzeDocument tfidf formatDate now document versions relatedDocs
        allDocs).1.decay_detected
        = shouldFlagDecay
            (analyzeDocument tfidf formatDate now document versions relatedDocs
              allDocs).1.confidence_score
            (analyzeDocument tfidf formatDate now document versions relatedDocs
              allDocs).1.risk_level := rfl
    rw [hd, shouldFlagDecay]
    simp [Bool.or_eq_true, decide_eq_true_iff]
  · intro c r hle hne
    rw [shouldFlagDecay]
    by_cases hc : c = 1
    · subst hc
      have hr : r ≠ "low" := fun hr => hne ⟨rfl, hr⟩
      simp [hr]
    · have : c < 1 := lt_of_le_of_ne hle hc
      simp [this]

/-- Witness for C1: a concrete imperfect combination flags decay. -/
theorem claim_C1_witness : shouldFlagDecay (1/2) "high" = true :=
  (claim_C1_decay_flag tfidfEmpty formatDateNone 0 batchGoodDoc [] [] []).2.2 (1/2) "high"
    (by norm_num) (by simp)

/-! ## C3 -/

/-- C3 counterexample: with an age penalty of 0.123 (and three supporting
documents, so no other penalty), the recorded `total_penalty` is 0.12 —
the 3-decimal rounding of `1 −` the already 2-decimal-rounded final score —
while the 3-decimal rounding of the actual total applied penalty is 0.123.
The recorded `total_penalty` is therefore not independent of the 2-decimal
rounding of the final score, contrary to the claim. -/
theorem claim_C3_counterexample :
    (calculateConfidence (123/1000) 0 0 3).2.total_penalty = 12/100
    ∧ round3 (jsMin (123/1000) MAX_AGE_PENALTY + jsMin 0 MAX_CONTRADICTION_PENALTY
        + jsMin 0 MAX_DRIFT_PENALTY + appliedSupportPenalty 3) = 123/1000
    ∧ (12 : ℚ)/100 ≠ 123/1000 := by
  refine ⟨?_, ?_, by norm_num⟩ <;> with_unfolding_all decide

/-- C3 amended: the final confidence is clamped to [0,1] and rounded to 2
decimal places for every input, including adversarial penalties; the four
individual penalties are recorded rounded to 3 decimals, independent of the
final rounding; but `total_penalty` is the 3-decimal rounding of `1 −` the
2-decimal-rounded final confidence, hence not independent of it. -/
theorem claim_C3_amended (a c d : ℚ) (n : ℕ) :
    0 ≤ (calculateConfidence a c d n).1
    ∧ (calculateConfidence a c d n).1 ≤ 1
    ∧ (∃ k : ℤ, (calculateConfidence a c d n).1 = (k : ℚ)/100)
    ∧ (calculateConfidence a c d n).2.age_penalty = round3 (jsMin a MAX_AGE_PENALTY)
    ∧ (calculateConfidence a c d n).2.contradiction_penalty
        = round3 (jsMin c MAX_CONTRADICTION_PENALTY)
    ∧ (calculateConfidence a c d n).2.drift_penalty = round3 (jsMin d MAX_DRIFT_PENALTY)
    ∧ (calculateConfidence a c d n).2.support_penalty = round3 (appliedSupportPenalty n)
    ∧ (calculateConfidence a c d n).2.total_penalty
        = round3 (1 - (calculateConfidence a c d n).1)
    ∧ (calculateConfidence a c d n).2.final_confidence = (calculateConfidence a c d n).1 := by
  refine ⟨?_, ?_,
    ⟨jsRound ((jsMax 0 (jsMin (1 - jsMin a MAX_AGE_PENALTY - jsMin c MAX_CONTRADICTION_PENALTY
      - jsMin d MAX_DRIFT_PENALTY - appliedSupportPenalty n) 1)) * 100), rfl⟩,
    rfl, rfl, rfl, rfl, rfl, rfl⟩
  · exact (round2_bounds (jsMinMax_unit _).1 (jsMinMax_unit _).2).1
  · exact (round2_bounds (jsMinMax_unit _).1 (jsMinMax_unit _).2).2

/-! ## C4 -/

/-- C4 counterexample: an SOP updated exactly 40 days ago has status
`warning`, but its penalty is the 3-decimal rounding 0.133 of the linear
formula, not the raw value `0.1 + 0.2·(10/60)` the claim states (the claim
itself also asserts the rounded value 0.133 for this very input). -/
theorem claim_C4_counterexample :
    (evaluateFreshness (40 * 86400000) sopFortyDoc).status = "warning"
    ∧ (evaluateFreshness (40 * 86400000) sopFortyDoc).penalty = 133/1000
    ∧ (evaluateFreshness (40 * 86400000) sopFortyDoc).penalty
        ≠ 1/10 + (2/10) * ((40 - 30 : ℚ)/(90 - 30)) := by
  refine ⟨?_, ?_, ?_⟩ <;> with_unfolding_all decide

/-- C4 amended: with a parseable reference date (`lastVerifiedAt` if
present else `updatedAt`) giving age `age` in floored whole days, the
evaluation yields penalty 0 and status `fresh` below the warning
threshold, penalty 0.3 and status `critical` at or above the critical
threshold, and otherwise status `warning` with penalty equal to the
3-decimal rounding of `0.1 + 0.2·(age − warning)/(critical − warning)`;
for the SOP example at 40 days this rounding is 0.133. -/
theorem claim_C4_amended (now : ℤ) (doc : Document) (age : ℤ)
    (h : calculateAgeDays now (parseDateField (jsOrField doc.lastVerifiedAt doc.updatedAt))
      = some age) :
    (age < (DECAY_THRESHOLDS doc.type).1 →
      (evaluateFreshness now doc).penalty = 0 ∧ (evaluateFreshness now doc).status = "fresh")
    ∧ ((DECAY_THRESHOLDS doc.type).2 ≤ age →
      (evaluateFreshness now doc).penalty = 3/10
        ∧ (evaluateFreshness now doc).status = "critical")
    ∧ ((DECAY_THRESHOLDS doc.type).1 ≤ age → age < (DECAY_THRESHOLDS doc.type).2 →
      (evaluateFreshness now doc).status = "warning"
        ∧ (evaluateFreshness now doc).penalty
          = round3 (1/10 + (2/10) * (((age - (DECAY_THRESHOLDS doc.type).1 : ℤ) : ℚ)
              / (((DECAY_THRESHOLDS doc.type).2 - (DECAY_THRESHOLDS doc.type).1 : ℤ) : ℚ)))) := by
  have hwc : (DECAY_THRESHOLDS doc.type).1 < (DECAY_THRESHOLDS doc.type).2 := by
    rw [DECAY_THRESHOLDS]
    split <;> try split <;> try split <;> try split
    all_goals norm_num
  refine ⟨fun hfresh => ?_, fun hcrit => ?_, fun hw hc => ?_⟩
  · have h1 : jsDateGe (calculateAgeDays now
        (parseDateField (jsOrField doc.lastVerifiedAt doc.updatedAt)))
        (DECAY_THRESHOLDS doc.type).2 = false := by
      rw [h, jsDateGe]
      simp only [decide_eq_false_iff_not, not_le]
      omega
    have h2 : jsDateGe (calculateAgeDays now
        (parseDateField (jsOrField doc.lastVerifiedAt doc.updatedAt)))
        (DECAY_THRESHOLDS doc.type).1 = false := by
      rw [h, jsDateGe]
      simp only [decide_eq_false_iff_not, not_le]
      omega
    simp [evaluateFreshness, h1, h2, round3_zero]
  · have h1 : jsDateGe (calculateAgeDays now
        (parseDateField (jsOrField doc.lastVerifiedAt doc.updatedAt)))
        (DECAY_THRESHOLDS doc.type).2 = true := by
      rw [h, jsDateGe]
      simpa using hcrit
    simp [evaluateFreshness, h1, round3_three_tenths]
  · have h1 : jsDateGe (some age) (DECAY_THRESHOLDS doc.type).2 = false := by
      rw [jsDateGe]
      simp only [decide_eq_false_iff_not, not_le]
      omega
    have h2 : jsDateGe (some age) (DECAY_THRESHOLDS doc.type).1 = true := by
      rw [jsDateGe]
      simpa using hw
    refine ⟨?_, ?_⟩ <;> simp [evaluateFreshness, h, h1, h2]

/-- Witness for C4 at a concrete critical-age SOP document. -/
theorem claim_C4_witness :
    (evaluateFreshness (100 * 86400000) sopFortyDoc).penalty = 3/10
    ∧ (evaluateFreshness (100 * 86400000) sopFortyDoc).status = "critical" := by
  have h : calculateAgeDays (100 * 86400000)
      (parseDateField (jsOrField sopFortyDoc.lastVerifiedAt sopFortyDoc.updatedAt))
      = some 100 := by with_unfolding_all decide
  exact (claim_C4_amended (100 * 86400000) sopFortyDoc 100 h).2.1 (by with_unfolding_all decide)

/-! ## C5 -/

/-- C5: for the subject statement "Deployments must complete within 5
minutes" (updated 2024-01-01) against the newer related statement with 15
minutes (2024-06-01), `detectContradictions` flags a contradiction with a
positive penalty, the emitted contradiction reason cites the related
document id, and the trigger is the numeric-conflict rule (same unit
`minutes`, different numbers, and the similarity of the statements with
the numeric tokens stripped — two identical strings — is 1 > 0.4). -/
theorem claim_C5_contradiction_example :
    (detectContradictions tfidfDeploy deploySubject [deployRelated]).hasContradictions = true
    ∧ 0 < (detectContradictions tfidfDeploy deploySubject [deployRelated]).penalty
    ∧ (detectContradictions tfidfDeploy deploySubject [deployRelated]).decayReasons.map
        (fun r => (r.type, r.sources)) = [("contradiction", ["doc-2"])]
    ∧ (detectContradictions tfidfDeploy deploySubject [deployRelated]).contradictions.map
        (fun c => c.reason) = [some "Numerical conflict: 5 minutes vs 15 minutes"]
    ∧ detectStatementContradiction tfidfDeploy
        "Deployments must complete within 5 minutes"
        "Deployments must complete within 15 minutes"
      = ⟨true, 1, some "Numerical conflict: 5 minutes vs 15 minutes"⟩ := by
  refine ⟨?_, ?_, ?_, ?_, ?_⟩ <;> with_unfolding_all decide

/-! ## C8 -/

theorem ratSqrt_zero : ratSqrt 0 = 0 := by with_unfolding_all decide

/-- Under equal lengths the dense loop reads nothing out of bounds, so
all three accumulators are actual numbers. -/
theorem denseLoop_some_of_length_eq :
    ∀ {l1 l2 : List ℚ}, l1.length = l2.length →
      ∃ d n1 n2 : ℚ, denseLoop l1 l2 = (some d, some n1, some n2) := by
  intro l1
  induction l1 with
  | nil =>
    intro l2 _
    exact ⟨0, 0, 0, rfl⟩
  | cons x xs ih =>
    intro l2 h
    cases l2 with
    | nil => simp at h
    | cons y ys =>
      obtain ⟨d, n1, n2, hd⟩ := ih (show xs.length = ys.length by simpa using h)
      exact ⟨d + x * y, n1 + x * x, n2 + y * y, by simp [denseLoop, hd, nanAdd]⟩

/-- C8 counterexample: on the dense pair `[3,4]` and `[5,12]` the
similarity is `63/65`, which is not a multiple of `1/1000` — the dense
branch of the similarity operation does not round to 3 decimal places. -/
theorem claim_C8_counterexample :
    calculateSimilarity (.dense [3, 4]) (.dense [5, 12]) = some (63/65)
    ∧ ¬ ∃ k : ℤ, (63 : ℚ)/65 = (k : ℚ)/1000 := by
  constructor
  · with_unfolding_all decide
  · rintro ⟨k, hk⟩
    have h1 : (63000 : ℚ) = 65 * (k : ℚ) := by
      field_simp at hk
      linarith
    have h2 : (63000 : ℤ) = 65 * k := by exact_mod_cast h1
    omega

/-- C8 amended: the sparse similarity returns 0 when either vector is
empty or either norm is zero and its result is always a multiple of
`1/1000` (rounded to 3 decimals); semantic difference is the 3-decimal
rounding of `1 −` similarity.  For dense arrays of equal length (the
same-shape case the specification speaks about) the branch returns 0 when
either norm is zero — in particular on empty arrays — but otherwise
returns the raw unrounded quotient; when the second array is shorter the
loop reads `undefined` and the result is `NaN` (`none`), not 0. -/
theorem claim_C8_amended (v1 v2 : SparseVec) (l1 l2 : List ℚ)
    (tfidf : String → List (String × ℚ)) (t1 t2 : Option String) :
    (v1 = [] ∨ v2 = [] → cosineSimilarity v1 v2 = 0)
    ∧ ((unionTerms v1 v2).foldl (fun a t => a + vecGet v1 t * vecGet v1 t) 0 = 0
        ∨ (unionTerms v1 v2).foldl (fun a t => a + vecGet v2 t * vecGet v2 t) 0 = 0 →
        cosineSimilarity v1 v2 = 0)
    ∧ (∃ k : ℤ, cosineSimilarity v1 v2 = (k : ℚ)/1000)
    ∧ calculateSemanticDifference tfidf t1 t2
        = round3 (1 - cosineSimilarity (generateTfIdfEmbedding tfidf t1)
            (generateTfIdfEmbedding tfidf t2))
    ∧ (l1.length = l2.length →
        (denseLoop l1 l2).2.1 = some 0 ∨ (denseLoop l1 l2).2.2 = some 0 →
        calculateSimilarity (.dense l1) (.dense l2) = some 0)
    ∧ (l1.length = l2.length → l1 = [] ∨ l2 = [] →
        calculateSimilarity (.dense l1) (.dense l2) = some 0)
    ∧ calculateSimilarity (.dense [3]) (.dense []) = none := by
  refine ⟨?_, ?_, ?_, rfl, ?_, ?_, by with_unfolding_all decide⟩
  · rintro (h | h) <;> simp [cosineSimilarity, h]
  · intro hn
    have hmag : ratSqrt ((unionTerms v1 v2).foldl
          (fun a t => a + vecGet v1 t * vecGet v1 t) 0)
        * ratSqrt ((unionTerms v1 v2).foldl
          (fun a t => a + vecGet v2 t * vecGet v2 t) 0) = 0 := by
      rcases hn with h | h <;> rw [h, ratSqrt_zero] <;> ring
    by_cases he : (v1.isEmpty || v2.isEmpty) = true
    · simp [cosineSimilarity, he]
    · simp only [cosineSimilarity, he, if_false, Bool.false_eq_true, hmag]
      simp
  · simp only [cosineSimilarity]
    split_ifs
    · exact ⟨0, by norm_num⟩
    · exact ⟨0, by norm_num⟩
    · exact ⟨_, rfl⟩
  · intro hlen hz
    obtain ⟨d, n1, n2, hd⟩ := denseLoop_some_of_length_eq hlen
    have hmag : nanMul ((denseLoop l1 l2).2.1.map ratSqrt)
        ((denseLoop l1 l2).2.2.map ratSqrt) = some 0 := by
      rcases hz with h | h
      · have h1 : n1 = 0 := by
          rw [hd] at h
          simpa using h
        rw [hd]
        simp [nanMul, h1, ratSqrt_zero]
      · have h2 : n2 = 0 := by
          rw [hd] at h
          simpa using h
        rw [hd]
        simp [nanMul, h2, ratSqrt_zero]
    simp only [calculateSimilarity, hmag]
    simp
  · intro hlen he
    have hboth : l1 = [] ∧ l2 = [] := by
      rcases he with h | h
      · subst h
        exact ⟨rfl, List.length_eq_zero.mp (by simpa using hlen.symm)⟩
      · subst h
        exact ⟨List.length_eq_zero.mp (by simpa using hlen), rfl⟩
    rw [hboth.1, hboth.2]
    with_unfolding_all decide

/-- Witness for C8 on concrete empty and zero-norm vectors. -/
theorem claim_C8_witness :
    cosineSimilarity [] [("a", 1)] = 0
    ∧ calculateSimilarity (.dense [1]) (.dense [0]) = some 0 := by
  refine ⟨(claim_C8_amended [] [("a", 1)] [1] [0] tfidfEmpty none none).1 (Or.inl rfl),
    (claim_C8_amended [] [("a", 1)] [1] [0] tfidfEmpty none none).2.2.2.2.1 rfl (Or.inr ?_)⟩
  with_unfolding_all decide

/-! ## C9 -/

/-- C9 counterexample: a document supplied without an embedding is mutated
by `analyzeDocument` — after the call its `embedding` field holds the
computed vector (here the empty TF-IDF map), so the supplied snapshot is
not unchanged. -/
theorem claim_C9_counterexample :
    mutationDoc.embedding = none
    ∧ (analyzeDocument tfidfEmpty formatDateNone 0 mutationDoc [] [] []).2.embedding = some []
    ∧ (analyzeDocument tfidfEmpty formatDateNone 0 mutationDoc [] [] []).2 ≠ mutationDoc := by
  refine ⟨rfl, ?_, ?_⟩ <;> with_unfolding_all decide

/-- C9 amended: `analyzeDocument` leaves a document with a present
embedding unchanged, and mutates a document without one only by storing
the computed embedding: every other field is unchanged in all cases (the
versions and related-documents lists are never assigned to). -/
theorem claim_C9_amended (tfidf : String → List (String × ℚ))
    (formatDate : JsDateField → String) (now : ℤ) (doc : Document)
    (versions : List Version) (relatedDocs allDocs : List Document) :
    ((doc.embedding ≠ none →
        (analyzeDocument tfidf formatDate now doc versions relatedDocs allDocs).2 = doc)
    ∧ (doc.embedding = none →
        (analyzeDocument tfidf formatDate now doc versions relatedDocs allDocs).2
          = { doc with embedding := some (getEmbedding tfidf doc.content) })
    ∧ (analyzeDocument tfidf formatDate now doc versions relatedDocs allDocs).2.id = doc.id
    ∧ (analyzeDocument tfidf formatDate now doc versions relatedDocs allDocs).2.content
        = doc.content
    ∧ (analyzeDocument tfidf formatDate now doc versions relatedDocs allDocs).2.updatedAt
        = doc.updatedAt
    ∧ (analyzeDocument tfidf formatDate now doc versions relatedDocs allDocs).2.versions
        = doc.versions) := by
  have hd : (analyzeDocument tfidf formatDate now doc versions relatedDocs allDocs).2
      = (if doc.embedding = none then
          { doc with embedding := some (getEmbedding tfidf doc.content) }
        else doc) := rfl
  rw [hd]
  by_cases h : doc.embedding = none
  · rw [if_pos h]
    refine ⟨fun hne => absurd h hne, fun _ => rfl, rfl, rfl, rfl, rfl⟩
  · rw [if_neg h]
    exact ⟨fun _ => rfl, fun he => absurd he h, rfl, rfl, rfl, rfl⟩

/-- Witness for C9 at a document whose embedding is present: the document
is returned unchanged. -/
theorem claim_C9_witness :
    (analyzeDocument tfidfEmpty formatDateNone 0 witnessSubject [] [] []).2
      = witnessSubject :=
  (claim_C9_amended tfidfEmpty formatDateNone 0 witnessSubject [] [] []).1
    (by with_unfolding_all decide)

/-! ## C6 -/

/-- C6: for a non-empty versions list, the drift penalty is 0.2 when some
version is at semantic difference at least 0.4 from the current content,
0.1 when the maximum lies in [0.25, 0.4), and 0 otherwise; whenever some
version reaches 0.4, exactly one `version_drift` decay reason is emitted
and it references the first entry of the significant-changes subset (and
none is emitted otherwise). -/
theorem claim_C6_version_drift (tfidf : String → List (String × ℚ))
    (doc : Document) (versions : List Version) (h : versions ≠ []) :
    ((analyzeVersionDrift tfidf doc versions).penalty =
      (if ∃ v ∈ versions, 2/5 ≤ versionDrift tfidf doc v then 2/10
       else if ∃ v ∈ versions, 1/4 ≤ versionDrift tfidf doc v then 1/10 else 0))
    ∧ ((∃ v ∈ versions, 2/5 ≤ versionDrift tfidf doc v) →
        ∃ c, ((analyzeVersionDrift tfidf doc versions).changes.filter
            (fun c => c.severity = "significant")).head? = some c
          ∧ (analyzeVersionDrift tfidf doc versions).decayReason
            = some ⟨"version_drift",
                "Significant semantic change detected from version "
                  ++ toString c.fromVersion ++ " to " ++ toString c.toVersion
                  ++ " (drift score: " ++ renderQ3 c.driftScore ++ ")", []⟩)
    ∧ ((¬ ∃ v ∈ versions, 2/5 ≤ versionDrift tfidf doc v) →
        (analyzeVersionDrift tfidf doc versions).decayReason = none) := by
  have hunfold : analyzeVersionDrift tfidf doc versions
      = analyzeVersionDriftCore tfidf doc versions := by
    rw [analyzeVersionDrift, if_neg h]
  have hs25 : SIGNIFICANT_DRIFT_THRESHOLD = (2:ℚ)/5 := by
    rw [SIGNIFICANT_DRIFT_THRESHOLD]
    norm_num
  have hm14 : MODERATE_DRIFT_THRESHOLD = (1:ℚ)/4 := rfl
  have hiff2 : (2:ℚ)/5 ≤ versions.foldl
        (fun m v => let d := versionDrift tfidf doc v; if m < d then d else m) 0
      ↔ ∃ v ∈ versions, 2/5 ≤ versionDrift tfidf doc v :=
    foldlMax_threshold (fun v => versionDrift tfidf doc v) versions (by norm_num)
  have hiff1 : (1:ℚ)/4 ≤ versions.foldl
        (fun m v => let d := versionDrift tfidf doc v; if m < d then d else m) 0
      ↔ ∃ v ∈ versions, 1/4 ≤ versionDrift tfidf doc v :=
    foldlMax_threshold (fun v => versionDrift tfidf doc v) versions (by norm_num)
  have hpen : (analyzeVersionDriftCore tfidf doc versions).penalty
      = round3 (if (2:ℚ)/5 ≤ versions.foldl
            (fun m v => let d := versionDrift tfidf doc v; if m < d then d else m) 0
          then 2/10
          else if (1:ℚ)/4 ≤ versions.foldl
            (fun m v => let d := versionDrift tfidf doc v; if m < d then d else m) 0
          then 1/10 else 0) := by
    rw [← hs25, ← hm14]
    rfl
  have hchanges : (analyzeVersionDriftCore tfidf doc versions).changes
      = versions.filterMap (fun v =>
          if (1:ℚ)/4 ≤ versionDrift tfidf doc v then
            some (⟨v.versionNumber, doc.currentVersion, versionDrift tfidf doc v,
              if (2:ℚ)/5 ≤ versionDrift tfidf doc v then "significant" else "moderate",
              v.summary.getD ("Version " ++ toString v.versionNumber)⟩ : DriftChange)
          else none) := by
    rw [← hs25, ← hm14]
    rfl
  have hreason : (analyzeVersionDriftCore tfidf doc versions).decayReason
      = (((analyzeVersionDriftCore tfidf doc versions).changes.filter
            (fun c => c.severity = "significant")).head?).map (fun mostRecent =>
          DecayReason.mk "version_drift"
            ("Significant semantic change detected from version "
              ++ toString mostRecent.fromVersion ++ " to " ++ toString mostRecent.toVersion
              ++ " (drift score: " ++ renderQ3 mostRecent.driftScore ++ ")") []) := rfl
  refine ⟨?_, ?_, ?_⟩
  · rw [hunfold, hpen]
    by_cases h4 : ∃ v ∈ versions, 2/5 ≤ versionDrift tfidf doc v
    · rw [if_pos h4, if_pos (hiff2.mpr h4), round3_two_tenths]
    · rw [if_neg h4, if_neg (fun hle => h4 (hiff2.mp hle))]
      by_cases h1 : ∃ v ∈ versions, 1/4 ≤ versionDrift tfidf doc v
      · rw [if_pos h1, if_pos (hiff1.mpr h1), round3_one_tenth]
      · rw [if_neg h1, if_neg (fun hle => h1 (hiff1.mp hle)), round3_zero]
  · rintro ⟨v, hv, hd⟩
    rw [hunfold]
    have hmod : (1:ℚ)/4 ≤ versionDrift tfidf doc v := by linarith
    have hmem : (⟨v.versionNumber, doc.currentVersion, versionDrift tfidf doc v,
        "significant", v.summary.getD ("Version " ++ toString v.versionNumber)⟩ : DriftChange)
        ∈ (analyzeVersionDriftCore tfidf doc versions).changes := by
      rw [hchanges]
      refine List.mem_filterMap.mpr ⟨v, hv, ?_⟩
      rw [if_pos hmod, if_pos hd]
    have hmemf : (⟨v.versionNumber, doc.currentVersion, versionDrift tfidf doc v,
        "significant", v.summary.getD ("Version " ++ toString v.versionNumber)⟩ : DriftChange)
        ∈ (analyzeVersionDriftCore tfidf doc versions).changes.filter
          (fun c => c.severity = "significant") :=
      List.mem_filter.mpr ⟨hmem, by simp⟩
    obtain ⟨c, cs, hfil⟩ : ∃ c cs,
        (analyzeVersionDriftCore tfidf doc versions).changes.filter
          (fun c => c.severity = "significant") = c :: cs := by
      cases hf : (analyzeVersionDriftCore tfidf doc versions).changes.filter
          (fun c => c.severity = "significant") with
      | nil => rw [hf] at hmemf; cases hmemf
      | cons c cs => exact ⟨c, cs, rfl⟩
    refine ⟨c, by rw [hfil]; rfl, ?_⟩
    rw [hreason, hfil]
    rfl
  · intro h4
    rw [hunfold, hreason]
    have hfil : (analyzeVersionDriftCore tfidf doc versions).changes.filter
        (fun c => c.severity = "significant") = [] := by
      rw [List.filter_eq_nil_iff]
      intro c hc
      rw [hchanges] at hc
      obtain ⟨v, hv, hgv⟩ := List.mem_filterMap.mp hc
      by_cases hmod : (1:ℚ)/4 ≤ versionDrift tfidf doc v
      · rw [if_pos hmod] at hgv
        by_cases hsig : (2:ℚ)/5 ≤ versionDrift tfidf doc v
        · exact absurd ⟨v, hv, hsig⟩ h4
        · rw [if_neg hsig] at hgv
          cases hgv
          simp
      · rw [if_neg hmod] at hgv
        cases hgv
    rw [hfil]
    rfl

/-- Witness for C6 at a one-version document whose drift is 1. -/
theorem claim_C6_witness :
    (analyzeVersionDrift tfidfWitness witnessSubject [witnessVersion]).penalty = 2/10 := by
  have h := claim_C6_version_drift tfidfWitness witnessSubject [witnessVersion]
    (by simp)
  rw [h.1, if_pos ⟨witnessVersion, by simp, by with_unfolding_all decide⟩]

/-! ## C7 -/

/-- C7: `findRelatedDocuments` never includes the subject document, is a
permutation of exactly the non-subject candidates whose similarity is at or
above the threshold, is sorted by similarity descending, and a higher
threshold never returns more results than a lower one on the same inputs. -/
theorem claim_C7_find_related (tfidf : String → List (String × ℚ))
    (document : Document) (allDocs : List Document) (t t' : ℚ) (h : t ≤ t') :
    (∀ p ∈ findRelatedDocuments tfidf document allDocs t, p.1.id ≠ document.id)
    ∧ (findRelatedDocuments tfidf document allDocs t).Perm
        (((allDocs.filter (fun d => d.id ≠ document.id)).map (fun d =>
            (d, cosineSimilarity
              (document.embedding.getD (generateTfIdfEmbedding tfidf document.content))
              (d.embedding.getD (generateTfIdfEmbedding tfidf d.content))))).filter
          (fun p => t ≤ p.2))
    ∧ List.Sorted simDesc (findRelatedDocuments tfidf document allDocs t)
    ∧ (findRelatedDocuments tfidf document allDocs t').length
        ≤ (findRelatedDocuments tfidf document allDocs t).length := by
  have hperm : ∀ s : ℚ, (findRelatedDocuments tfidf document allDocs s).Perm
      (((allDocs.filter (fun d => d.id ≠ document.id)).map (fun d =>
          (d, cosineSimilarity
            (document.embedding.getD (generateTfIdfEmbedding tfidf document.content))
            (d.embedding.getD (generateTfIdfEmbedding tfidf d.content))))).filter
        (fun p => s ≤ p.2)) := by
    intro s
    rw [findRelatedDocuments]
    exact List.perm_insertionSort simDesc _
  refine ⟨?_, hperm t, ?_, ?_⟩
  · intro p hp
    have hmem := (hperm t).mem_iff.mp hp
    have hmem2 := List.mem_filter.mp hmem
    obtain ⟨d, hd, hpd⟩ := List.mem_map.mp hmem2.1
    have hdid := (List.mem_filter.mp hd).2
    rw [← hpd]
    simpa using hdid
  · rw [findRelatedDocuments]
    exact List.sorted_insertionSort simDesc _
  · rw [(hperm t).length_eq, (hperm t').length_eq]
    refine length_filter_mono _ _ _ ?_
    intro x hx
    simp only [decide_eq_true_iff] at hx ⊢
    linarith

/-- Witness for C7 at a concrete pool: the subject is excluded and the
0.5-threshold result is no longer than the 0.3-threshold result. -/
theorem claim_C7_witness :
    (∀ p ∈ findRelatedDocuments tfidfEmpty witnessSubject witnessPool (3/10),
      p.1.id ≠ witnessSubject.id)
    ∧ (findRelatedDocuments tfidfEmpty witnessSubject witnessPool (1/2)).length
        ≤ (findRelatedDocuments tfidfEmpty witnessSubject witnessPool (3/10)).length := by
  have h := claim_C7_find_related tfidfEmpty witnessSubject witnessPool (3/10) (1/2)
    (by norm_num)
  exact ⟨h.1, h.2.2.2⟩

/-! ## C2 -/

/-- C2 counterexample: a 2-document batch whose second document has
`content: null` returns two records, but the malformed one is a fully
analyzed regular record (no error field, risk `low`, confidence 0.9, a
single `low_support` reason), not the synthetic error record the claim
describes (risk `high`, confidence 0, one `error` reason): analyzing a
null content never throws, because every helper guards it. -/
theorem claim_C2_counterexample :
    (batchAnalyze tfidfEmpty formatDateNone 0 [batchGoodDoc, batchNullDoc] []).length = 2
    ∧ (batchAnalyze tfidfEmpty formatDateNone 0 [batchGoodDoc, batchNullDoc] []).map
        (fun r => (r.documentId, r.error)) = [("doc-g", none), ("doc-n", none)]
    ∧ (batchAnalyze tfidfEmpty formatDateNone 0 [batchGoodDoc, batchNullDoc] []).map
        (fun r => (r.risk_level, r.confidence_score, r.decay_detected,
          r.decay_reasons.map (fun x => x.type)))
      = [("low", (9:ℚ)/10, true, ["low_support"]), ("low", (9:ℚ)/10, true, ["low_support"])]
    ∧ ("low" : String) ≠ "high" ∧ (9 : ℚ)/10 ≠ 0 := by
  refine ⟨rfl, ?_, ?_, by simp, by norm_num⟩ <;> with_unfolding_all decide

/-- C2 amended: `batchAnalyze` returns exactly one record per input
document, in input order, and (under the default provider) no analysis
throws, so every record is a success record; the catch branch would build
the synthetic error record exactly as described, but a `content: null`
document does not reach it — it is fully analyzed into a regular record. -/
theorem claim_C2_amended (tfidf : String → List (String × ℚ))
    (formatDate : JsDateField → String) (now : ℤ)
    (documents allDocs : List Document) :
    (batchAnalyze tfidf formatDate now documents allDocs).length = documents.length
    ∧ (batchAnalyze tfidf formatDate now documents allDocs).map (fun r => r.documentId)
        = documents.map (fun d => d.id)
    ∧ (∀ r ∈ batchAnalyze tfidf formatDate now documents allDocs, r.error = none)
    ∧ (∀ d msg, (errorRecord d msg).risk_level = "high"
        ∧ (errorRecord d msg).decay_detected = false
        ∧ (errorRecord d msg).confidence_score = 0
        ∧ (errorRecord d msg).decay_reasons
          = [⟨"error", "Analysis failed: " ++ msg, []⟩]) := by
  refine ⟨?_, ?_, ?_, fun d msg => ⟨rfl, rfl, rfl, rfl⟩⟩
  · rw [batchAnalyze, List.length_map]
  · rw [batchAnalyze, List.map_map]
    rfl
  · intro r hr
    rw [batchAnalyze] at hr
    obtain ⟨d, _, hd⟩ := List.mem_map.mp hr
    rw [← hd]
    rfl

/-- Witness for C2 at a concrete one-document batch. -/
theorem claim_C2_witness :
    (batchAnalyze tfidfEmpty formatDateNone 0 [batchGoodDoc] []).map (fun r => r.documentId)
      = ["doc-g"]
    ∧ (errorRecord batchNullDoc "boom").risk_level = "high" := by
  have h := claim_C2_amended tfidfEmpty formatDateNone 0 [batchGoodDoc] []
  refine ⟨?_, (h.2.2.2 batchNullDoc "boom").1⟩
  rw [h.2.1]
  rfl

/-- Witness for C3 at concrete over-cap penalties. -/
theorem claim_C3_witness :
    0 ≤ (calculateConfidence 5 5 5 0).1 ∧ (calculateConfidence 5 5 5 0).1 ≤ 1 :=
  ⟨(claim_C3_amended 5 5 5 0).1, (claim_C3_amended 5 5 5 0).2.1⟩
